import Mathlib

set_option autoImplicit false

/-!
Shallow embedding of the roc x86-64 dev backend
(`compiler/gen_dev/src/generic64/x86_64.rs`) and of the LLVM bitcode
wrapper helpers (`compiler/gen_llvm/src/llvm/bitcode.rs`), together with
theorems settling the specification claims about them.

Machine bytes are modelled as `Nat` values below 256; each encoder
operation is modelled as the list of bytes it appends to the output
buffer (the Rust functions only ever append to the caller's `Vec<u8>`,
so the buffer after a call is the buffer before it concatenated with
the returned list).
-/

namespace RocX86

/-- The closed set of x86-64 general-purpose registers
(`enum X86_64GPReg` in `x86_64.rs`). -/
inductive X86_64GPReg where
  | RAX | RCX | RDX | RBX | RSP | RBP | RSI | RDI
  | R8 | R9 | R10 | R11 | R12 | R13 | R14 | R15
deriving DecidableEq, Repr, Fintype

open X86_64GPReg

/-- The fixed numeric hardware encoding of each register
(the `as u8` discriminants 0..15 in `x86_64.rs`). -/
def enc : X86_64GPReg → Nat
  | RAX => 0 | RCX => 1 | RDX => 2 | RBX => 3
  | RSP => 4 | RBP => 5 | RSI => 6 | RDI => 7
  | R8 => 8 | R9 => 9 | R10 => 10 | R11 => 11
  | R12 => 12 | R13 => 13 | R14 => 14 | R15 => 15

/-- `const REX: u8 = 0x40`. -/
def REX : Nat := 0x40

/-- `const REX_W: u8 = REX + 0x8`. -/
def REX_W : Nat := REX + 0x8

/-- `add_rm_extension`: add the REX.B bit when the r/m register's
encoding exceeds 7. -/
def add_rm_extension (reg : X86_64GPReg) (byte : Nat) : Nat :=
  if enc reg > 7 then byte + 1 else byte

/-- `add_opcode_extension`: identical to `add_rm_extension` in the source. -/
def add_opcode_extension (reg : X86_64GPReg) (byte : Nat) : Nat :=
  add_rm_extension reg byte

/-- `add_reg_extension`: add the REX.R bit when the reg-field register's
encoding exceeds 7. -/
def add_reg_extension (reg : X86_64GPReg) (byte : Nat) : Nat :=
  if enc reg > 7 then byte + 4 else byte

/-- Little-endian byte serialization: `n` bytes of the value `v`
(the unsigned view of Rust's `to_le_bytes`). -/
def natLeBytes : Nat → Nat → List Nat
  | 0, _ => []
  | k + 1, v => v % 256 :: natLeBytes k (v / 256)

/-- `i32::to_le_bytes`: 4 little-endian bytes of the two's-complement
32-bit representation of a signed value. -/
def i32ToLeBytes (i : Int) : List Nat :=
  natLeBytes 4 (i % (2 ^ 32 : Int)).toNat

/-- `i64::to_le_bytes`: 8 little-endian bytes of the two's-complement
64-bit representation of a signed value. -/
def i64ToLeBytes (i : Int) : List Nat :=
  natLeBytes 8 (i % (2 ^ 64 : Int)).toNat

/-- `add_register64bit_immediate32bit`: bytes appended for
`ADD r/m64, imm32`. -/
def add_register64bit_immediate32bit (dst : X86_64GPReg) (imm : Int) : List Nat :=
  [add_rm_extension dst REX_W, 0x81, 0xC0 + enc dst % 8] ++ i32ToLeBytes imm

/-- `add_register64bit_register64bit`: bytes appended for `ADD r/m64, r64`. -/
def add_register64bit_register64bit (dst src : X86_64GPReg) : List Nat :=
  [add_reg_extension src (add_rm_extension dst REX_W), 0x01,
   0xC0 + enc dst % 8 + (enc src % 8) * 8]

/-- `cmovl_register64bit_register64bit`: bytes appended for `CMOVL r64, r/m64`. -/
def cmovl_register64bit_register64bit (dst src : X86_64GPReg) : List Nat :=
  [add_rm_extension src (add_reg_extension dst REX_W), 0x0F, 0x4C,
   0xC0 + (enc dst % 8) * 8 + enc src % 8]

/-- `mov_register64bit_immediate32bit`: bytes appended for
`MOV r/m64, imm32`. -/
def mov_register64bit_immediate32bit (dst : X86_64GPReg) (imm : Int) : List Nat :=
  [add_rm_extension dst REX_W, 0xC7, 0xC0 + enc dst % 8] ++ i32ToLeBytes imm

/-- `mov_register64bit_immediate64bit`: bytes appended for
`MOV r64, imm64`; delegates to the 32-bit-immediate form when the
immediate fits in `i32` (the Rust source's
`imm <= i32::MAX as i64 && imm >= i32::MIN as i64` test; the `imm as i32`
truncation there is the identity on this range, so the delegated call
serializes the same signed value). -/
def mov_register64bit_immediate64bit (dst : X86_64GPReg) (imm : Int) : List Nat :=
  if imm ≤ 2147483647 ∧ -2147483648 ≤ imm then
    mov_register64bit_immediate32bit dst imm
  else
    [add_opcode_extension dst REX_W, 0xB8 + enc dst % 8] ++ i64ToLeBytes imm

/-- `mov_register64bit_register64bit`: bytes appended for `MOV r/m64, r64`. -/
def mov_register64bit_register64bit (dst src : X86_64GPReg) : List Nat :=
  [add_reg_extension src (add_rm_extension dst REX_W), 0x89,
   0xC0 + enc dst % 8 + (enc src % 8) * 8]

/-- `mov_register64bit_stackoffset32bit`: bytes appended for the stack-slot
load `MOV r64, [RSP + disp32]`. -/
def mov_register64bit_stackoffset32bit (dst : X86_64GPReg) (offset : Int) : List Nat :=
  [add_reg_extension dst REX_W, 0x8B, 0x84 + (enc dst % 8) * 8, 0x24] ++
    i32ToLeBytes offset

/-- `mov_stackoffset32bit_register64bit`: bytes appended for the stack-slot
store `MOV [RSP + disp32], r64`. -/
def mov_stackoffset32bit_register64bit (offset : Int) (src : X86_64GPReg) : List Nat :=
  [add_reg_extension src REX_W, 0x89, 0x84 + (enc src % 8) * 8, 0x24] ++
    i32ToLeBytes offset

/-- `neg_register64bit`: bytes appended for `NEG r/m64`. -/
def neg_register64bit (reg : X86_64GPReg) : List Nat :=
  [add_rm_extension reg REX_W, 0xF7, 0xD8 + enc reg % 8]

/-- `ret`: the single `RET` opcode byte. -/
def ret : List Nat := [0xC3]

/-- `sub_register64bit_immediate32bit`: bytes appended for
`SUB r/m64, imm32`. -/
def sub_register64bit_immediate32bit (dst : X86_64GPReg) (imm : Int) : List Nat :=
  [add_rm_extension dst REX_W, 0x81, 0xE8 + enc dst % 8] ++ i32ToLeBytes imm

/-- `pop_register64bit`: bytes appended for `POP r64` — a bare opcode byte
for encodings 0..7, a `0x41` REX prefix plus opcode byte above 7. -/
def pop_register64bit (reg : X86_64GPReg) : List Nat :=
  if enc reg > 7 then
    [add_opcode_extension reg REX, 0x58 + enc reg % 8]
  else
    [0x58 + enc reg % 8]

/-- `push_register64bit`: bytes appended for `PUSH r64` — a bare opcode byte
for encodings 0..7, a `0x41` REX prefix plus opcode byte above 7. -/
def push_register64bit (reg : X86_64GPReg) : List Nat :=
  if enc reg > 7 then
    [add_opcode_extension reg REX, 0x50 + enc reg % 8]
  else
    [0x50 + enc reg % 8]

/-! The two calling-convention tables. Rust's `ImSet` return values are
modelled as the lists the source builds them from; all claims about them
are membership / set-shaped, so the list order of the two saved-register
sets is never relied on. -/

namespace X86_64SystemV

/-- `X86_64SystemV::gp_param_regs`. -/
def gp_param_regs : List X86_64GPReg := [RDI, RSI, RDX, RCX, R8, R9]

/-- `X86_64SystemV::gp_return_regs`. -/
def gp_return_regs : List X86_64GPReg := [RAX, RDX]

/-- `X86_64SystemV::gp_default_free_regs` (RBP and RSP are commented out
in the source list). -/
def gp_default_free_regs : List X86_64GPReg :=
  [RBX, R12, R13, R14, R15, RAX, RCX, RDX, RSI, RDI, R8, R9, R10, R11]

/-- `X86_64SystemV::caller_saved_regs`. -/
def caller_saved_regs : List X86_64GPReg :=
  [RAX, RCX, RDX, RSP, RSI, RDI, R8, R9, R10, R11]

/-- `X86_64SystemV::callee_saved_regs`. -/
def callee_saved_regs : List X86_64GPReg :=
  [RBX, RBP, R12, R13, R14, R15]

/-- `X86_64SystemV::stack_pointer`. -/
def stack_pointer : X86_64GPReg := RSP

/-- `X86_64SystemV::frame_pointer`. -/
def frame_pointer : X86_64GPReg := RBP

/-- `X86_64SystemV::shadow_space_size`. -/
def shadow_space_size : Nat := 0

/-- `X86_64SystemV::red_zone_size`. -/
def red_zone_size : Nat := 128

end X86_64SystemV

namespace X86_64WindowsFastcall

/-- `X86_64WindowsFastcall::gp_param_regs`. -/
def gp_param_regs : List X86_64GPReg := [RCX, RDX, R8, R9]

/-- `X86_64WindowsFastcall::gp_return_regs`. -/
def gp_return_regs : List X86_64GPReg := [RAX]

/-- `X86_64WindowsFastcall::gp_default_free_regs` (RBP and RSP are
commented out in the source list). -/
def gp_default_free_regs : List X86_64GPReg :=
  [RBX, RSI, RDI, R12, R13, R14, R15, RAX, RCX, RDX, R8, R9, R10, R11]

/-- `X86_64WindowsFastcall::caller_saved_regs`. -/
def caller_saved_regs : List X86_64GPReg :=
  [RAX, RCX, RDX, R8, R9, R10, R11]

/-- `X86_64WindowsFastcall::callee_saved_regs`. -/
def callee_saved_regs : List X86_64GPReg :=
  [RBX, RBP, RSI, RSP, RDI, R12, R13, R14, R15]

/-- `X86_64WindowsFastcall::stack_pointer`. -/
def stack_pointer : X86_64GPReg := RSP

/-- `X86_64WindowsFastcall::frame_pointer`. -/
def frame_pointer : X86_64GPReg := RBP

/-- `X86_64WindowsFastcall::shadow_space_size`. -/
def shadow_space_size : Nat := 32

/-- `X86_64WindowsFastcall::red_zone_size`. -/
def red_zone_size : Nat := 0

end X86_64WindowsFastcall

end RocX86

namespace RocBitcode

/-!
Shallow embedding of `compiler/gen_llvm/src/llvm/bitcode.rs`.

The inkwell/LLVM objects are modelled by their observable content:
a module is the list of functions it holds, keyed by name exactly as
`Module::get_function` keys them; a function value records its name,
whether it returns void, its calling convention, and the
`(callee, calling convention)` pairs of the calls its body makes.
A builder pattern of "create the function, then mutate its calling
convention / attributes, then emit its body" is collapsed into
constructing the finished function record and adding it to the module
once; the fallible paths (`panic!` / `unreachable!`) are modelled with
`Except` / `Option` results.
-/

/-- The two LLVM calling conventions named in `bitcode.rs`:
`C_CALL_CONV` and `FAST_CALL_CONV` from `llvm/build.rs`. -/
inductive CallConvLLVM where
  | cCall
  | fastCall
deriving DecidableEq, Repr

/-- An LLVM function value as observed by this module's code:
its name, whether its return type is void, its calling convention, and
the calls its body makes (callee name and per-call-site convention). -/
structure LLVMFunction where
  name : String
  retIsVoid : Bool
  callConv : CallConvLLVM
  bodyCalls : List (String × CallConvLLVM)
deriving DecidableEq, Repr

/-- An LLVM module: the functions it contains. -/
structure LLVMModule where
  functions : List LLVMFunction
deriving DecidableEq, Repr

/-- `Module::get_function`: look a function up by name. -/
def LLVMModule.get_function (m : LLVMModule) (name : String) : Option LLVMFunction :=
  m.functions.find? (fun f => f.name == name)

/-- Adding a newly built function to the module. -/
def LLVMModule.addFunction (m : LLVMModule) (f : LLVMFunction) : LLVMModule :=
  ⟨m.functions ++ [f]⟩

/-- An argument value passed to a bitcode call (opaque payload). -/
structure BasicValueEnum where
  val : Nat
deriving DecidableEq, Repr

/-- A call site produced by `builder.build_call`: the resolved callee, the
arguments, and the convention set by `set_call_convention`. -/
structure CallSiteValue where
  callee : LLVMFunction
  args : List BasicValueEnum
  conv : CallConvLLVM
deriving DecidableEq, Repr

/-- The `panic!` message of `call_bitcode_fn_help` when the module has no
function of the requested name (`{:?}` formatting quotes the name). -/
def unrecognizedBuiltinMsg (fn_name : String) : String :=
  "Unrecognized builtin function: \"" ++ fn_name ++
    "\" - if you're working on the Roc compiler, do you need to rebuild the bitcode? See compiler/builtins/bitcode/README.md"

/-- The `panic!` message of `call_bitcode_fn` when the callee produced no
return value. -/
def didNotGetReturnValueMsg (fn_name : String) : String :=
  "LLVM error: Did not get return value from bitcode function \"" ++ fn_name ++ "\""

/-- The `panic!` message of `call_void_bitcode_fn` when the callee
unexpectedly produced a return value. -/
def gotReturnValueFromVoidMsg (fn_name : String) : String :=
  "LLVM error: Tried to call void bitcode function, but got return value from bitcode function, \"" ++
    fn_name ++ "\""

/-- `call_bitcode_fn_help`: resolve `fn_name` in the module, panicking
(modelled as `Except.error` with the panic message) when it is absent;
otherwise build the call and give it the callee's convention. -/
def call_bitcode_fn_help (m : LLVMModule) (args : List BasicValueEnum)
    (fn_name : String) : Except String CallSiteValue :=
  match m.get_function fn_name with
  | none => .error (unrecognizedBuiltinMsg fn_name)
  | some fn_val => .ok ⟨fn_val, args, fn_val.callConv⟩

/-- `call_bitcode_fn`: the call must produce a basic value
(`try_as_basic_value().left()`), i.e. the callee must not return void. -/
def call_bitcode_fn (m : LLVMModule) (args : List BasicValueEnum)
    (fn_name : String) : Except String CallSiteValue :=
  match call_bitcode_fn_help m args fn_name with
  | .error e => .error e
  | .ok call =>
      if call.callee.retIsVoid then .error (didNotGetReturnValueMsg fn_name)
      else .ok call

/-- `call_void_bitcode_fn`: the call must produce an instruction value
(`try_as_basic_value().right()`), i.e. the callee must return void. -/
def call_void_bitcode_fn (m : LLVMModule) (args : List BasicValueEnum)
    (fn_name : String) : Except String CallSiteValue :=
  match call_bitcode_fn_help m args fn_name with
  | .error e => .error e
  | .ok call =>
      if call.callee.retIsVoid then .ok call
      else .error (gotReturnValueFromVoidMsg fn_name)

/-- `s` contains `sub` as a contiguous substring. -/
def strContains (s sub : String) : Prop :=
  ∃ pre post, s = pre ++ sub ++ post

/-- The closure-data layouts the wrapper builders pattern-match on
(`roc_mono::layout::Layout` restricted to the shapes these matches
distinguish). -/
inductive Layout where
  /-- `Layout::FunctionPointer(_, _)` -/
  | functionPointer
  /-- `Layout::Closure(_, lambda_set, _)`; the flag records whether
  `lambda_set.runtime_representation()` is the empty struct. -/
  | closure (runtimeRepIsEmptyStruct : Bool)
  /-- `Layout::Struct([Layout::Closure(_, lambda_set, _)])` (Set.walk case). -/
  | structClosure (runtimeRepIsEmptyStruct : Bool)
  /-- `Layout::Struct([])` -/
  | structEmpty
  /-- `Layout::Struct(_)` with a nonzero number of non-closure fields. -/
  | structOther (fieldCount : Nat)
deriving DecidableEq, Repr

/-- The symbols `bitcode.rs` derives wrapper names from. -/
inductive Symbol where
  | genericRcRef
  | genericEqRef
deriving DecidableEq, Repr

/-- The interned name of a symbol. -/
def Symbol.toStr : Symbol → String
  | .genericRcRef => "#generic_rc_ref"
  | .genericEqRef => "#generic_eq_ref"

/-- Modelled from the spec: `roc_mono::layout::LayoutIds` is absent from
the sources; the wrapper builders use `layout_ids.get(symbol, layout)` as
a memo table that hands out one stable identifier per `(symbol, layout)`
key, so it is modelled as exactly that — an association list plus a
fresh-id counter, where `get` returns the existing id when the key is
present and otherwise assigns the next fresh id. -/
structure LayoutIds where
  assigned : List ((Symbol × Layout) × Nat)
  nextId : Nat
deriving DecidableEq, Repr

/-- `LayoutIds::get`: lookup-or-insert of the id for `(s, lay)`
(see the `LayoutIds` doc comment). -/
def LayoutIds.get (l : LayoutIds) (s : Symbol) (lay : Layout) : Nat × LayoutIds :=
  match l.assigned.find? (fun p => p.1 == (s, lay)) with
  | some p => (p.2, l)
  | none => (l.nextId, ⟨((s, lay), l.nextId) :: l.assigned, l.nextId + 1⟩)

/-- `to_symbol_string`: the textual function name derived from a symbol
and its layout id. -/
def toSymbolString (s : Symbol) (id : Nat) : String :=
  s.toStr ++ "_" ++ toString id

/-- `build_transform_caller_help`: build the `_zig_function_caller`
wrapper under the given name and add it to the module. The wrapper
returns void and its body calls the wrapped roc function with
`FAST_CALL_CONV` (`call.set_call_convention(FAST_CALL_CONV)`). -/
def build_transform_caller_help (m : LLVMModule) (roc_function : LLVMFunction)
    (_closure_data_layout : Layout) (_argument_layouts : List Layout)
    (fn_name : String) : LLVMFunction × LLVMModule :=
  let function_value : LLVMFunction :=
    ⟨fn_name, true, .fastCall, [(roc_function.name, .fastCall)]⟩
  (function_value, m.addFunction function_value)

/-- `build_transform_caller`: derive the wrapper name from the wrapped
function's name; reuse the module's existing function of that name when
there is one, else build it. -/
def build_transform_caller (m : LLVMModule) (function : LLVMFunction)
    (closure_data_layout : Layout) (argument_layouts : List Layout) :
    LLVMFunction × LLVMModule :=
  let fn_name := function.name ++ "_zig_function_caller"
  match m.get_function fn_name with
  | some function_value => (function_value, m)
  | none =>
      build_transform_caller_help m function closure_data_layout argument_layouts
        fn_name

/-- The `enum Mode` of `build_rc_wrapper`. -/
inductive Mode where
  | inc
  | incN
  | dec
deriving DecidableEq, Repr

/-- `build_rc_wrapper`: derive the wrapper name from the
`GENERIC_RC_REF` layout id plus a mode suffix; reuse the module's
existing function of that name when there is one, else build a void
wrapper and add it. -/
def build_rc_wrapper (m : LLVMModule) (layout_ids : LayoutIds) (layout : Layout)
    (rc_operation : Mode) : LLVMFunction × LLVMModule × LayoutIds :=
  let idAndIds := LayoutIds.get layout_ids Symbol.genericRcRef layout
  let base := toSymbolString Symbol.genericRcRef idAndIds.1
  let fn_name :=
    match rc_operation with
    | .incN => base ++ "_inc_n"
    | .inc => base ++ "_inc"
    | .dec => base ++ "_dec"
  match m.get_function fn_name with
  | some function_value => (function_value, m, idAndIds.2)
  | none =>
      let function_value : LLVMFunction := ⟨fn_name, true, .fastCall, []⟩
      (function_value, m.addFunction function_value, idAndIds.2)

/-- `build_inc_n_wrapper`. -/
def build_inc_n_wrapper (m : LLVMModule) (layout_ids : LayoutIds)
    (layout : Layout) : LLVMFunction × LLVMModule × LayoutIds :=
  build_rc_wrapper m layout_ids layout .incN

/-- `build_inc_wrapper`. -/
def build_inc_wrapper (m : LLVMModule) (layout_ids : LayoutIds)
    (layout : Layout) : LLVMFunction × LLVMModule × LayoutIds :=
  build_rc_wrapper m layout_ids layout .inc

/-- `build_dec_wrapper`. -/
def build_dec_wrapper (m : LLVMModule) (layout_ids : LayoutIds)
    (layout : Layout) : LLVMFunction × LLVMModule × LayoutIds :=
  build_rc_wrapper m layout_ids layout .dec

/-- `build_eq_wrapper`: derive the wrapper name from the
`GENERIC_EQ_REF` layout id; reuse the module's existing function of that
name when there is one, else build a bool-returning wrapper and add it. -/
def build_eq_wrapper (m : LLVMModule) (layout_ids : LayoutIds)
    (layout : Layout) : LLVMFunction × LLVMModule × LayoutIds :=
  let idAndIds := LayoutIds.get layout_ids Symbol.genericEqRef layout
  let fn_name := toSymbolString Symbol.genericEqRef idAndIds.1
  match m.get_function fn_name with
  | some function_value => (function_value, m, idAndIds.2)
  | none =>
      let function_value : LLVMFunction := ⟨fn_name, false, .fastCall, []⟩
      (function_value, m.addFunction function_value, idAndIds.2)

/-- The name `build_compare_wrapper` derives for a wrapped function. -/
def compareWrapperName (rocFunctionName : String) : String :=
  rocFunctionName ++ "_compare_wrapper"

/-- The argument-construction match of `build_compare_wrapper`: `some b`
says the layout is valid for a closure and `b` says whether the closure
data is appended as a third call argument; `none` is the source's
`unreachable!` branch. -/
def compareClosureArg : Layout → Option Bool
  | .functionPointer => some false
  | .closure runtimeRepIsEmptyStruct => some (!runtimeRepIsEmptyStruct)
  | .structEmpty => some false
  | .structClosure _ => none
  | .structOther _ => none

/-- `build_compare_wrapper`: reuse the module's existing
`_compare_wrapper` function when there is one; else build the
three-argument i8-returning wrapper, set its own convention to
`C_CALL_CONV` (`function_value.set_call_conventions(C_CALL_CONV)`), make
its body call the user function with `FAST_CALL_CONV`
(`call.set_call_convention(FAST_CALL_CONV)`), and add it to the module.
`none` models the `unreachable!` on layouts that are invalid for a
closure. -/
def build_compare_wrapper (m : LLVMModule) (roc_function : LLVMFunction)
    (closure_data_layout : Layout) : Option (LLVMFunction × LLVMModule) :=
  let fn_name := compareWrapperName roc_function.name
  match m.get_function fn_name with
  | some function_value => some (function_value, m)
  | none =>
      match compareClosureArg closure_data_layout with
      | none => none
      | some _ =>
          let function_value : LLVMFunction :=
            ⟨fn_name, false, .cCall, [(roc_function.name, .fastCall)]⟩
          some (function_value, m.addFunction function_value)

end RocBitcode

namespace RocX86

open X86_64GPReg

theorem natLeBytes_length (n v : Nat) : (natLeBytes n v).length = n := by
  induction n generalizing v with
  | zero => rfl
  | succ k ih => simp [natLeBytes, ih]

theorem i32ToLeBytes_length (i : Int) : (i32ToLeBytes i).length = 4 := by
  simp [i32ToLeBytes, natLeBytes_length]

theorem i64ToLeBytes_length (i : Int) : (i64ToLeBytes i).length = 8 := by
  simp [i64ToLeBytes, natLeBytes_length]

/-- C1: for every destination register and every signed 64-bit immediate,
`mov_register64bit_immediate64bit` emits the 7-byte 32-bit-immediate mov
encoding (REX, `0xC7`, `0xC0 + enc % 8`, 4-byte little-endian immediate)
exactly when `i32::MIN ≤ imm ≤ i32::MAX` (boundaries included), and
otherwise emits the 10-byte form `REX (0x48, plus 0x01 when the encoding
exceeds 7)`, `0xB8 + enc % 8`, 8-byte little-endian immediate. -/
theorem mov64_imm64_range_split (dst : X86_64GPReg) (imm : Int)
    (hlo : -(2 ^ 63) ≤ imm) (hhi : imm < 2 ^ 63) :
    (((-2147483648 : Int) ≤ imm ∧ imm ≤ 2147483647) →
        mov_register64bit_immediate64bit dst imm =
          (if enc dst > 7 then 0x49 else 0x48) :: 0xC7 :: (0xC0 + enc dst % 8) ::
            i32ToLeBytes imm ∧
        (mov_register64bit_immediate64bit dst imm).length = 7) ∧
    (¬ ((-2147483648 : Int) ≤ imm ∧ imm ≤ 2147483647) →
        mov_register64bit_immediate64bit dst imm =
          (if enc dst > 7 then 0x49 else 0x48) :: (0xB8 + enc dst % 8) ::
            i64ToLeBytes imm ∧
        (mov_register64bit_immediate64bit dst imm).length = 10) ∧
    ((mov_register64bit_immediate64bit dst imm).length = 7 ↔
      ((-2147483648 : Int) ≤ imm ∧ imm ≤ 2147483647)) := by
  by_cases h : ((-2147483648 : Int) ≤ imm ∧ imm ≤ 2147483647)
  · have h' : imm ≤ 2147483647 ∧ -2147483648 ≤ imm := ⟨h.2, h.1⟩
    have heq : mov_register64bit_immediate64bit dst imm =
        mov_register64bit_immediate32bit dst imm := by
      rw [mov_register64bit_immediate64bit, if_pos h']
    have hform : mov_register64bit_immediate32bit dst imm =
        (if enc dst > 7 then 0x49 else 0x48) :: 0xC7 :: (0xC0 + enc dst % 8) ::
          i32ToLeBytes imm := by
      cases dst <;>
        simp [mov_register64bit_immediate32bit, add_rm_extension, enc, REX_W, REX]
    have hlen : (mov_register64bit_immediate64bit dst imm).length = 7 := by
      rw [heq, hform]
      simp [i32ToLeBytes_length]
    exact ⟨fun _ => ⟨heq.trans hform, hlen⟩, fun hc => absurd h hc, by simp [hlen, h]⟩
  · have h' : ¬ (imm ≤ 2147483647 ∧ -2147483648 ≤ imm) := fun hc => h ⟨hc.2, hc.1⟩
    have heq : mov_register64bit_immediate64bit dst imm =
        [add_opcode_extension dst REX_W, 0xB8 + enc dst % 8] ++ i64ToLeBytes imm := by
      rw [mov_register64bit_immediate64bit, if_neg h']
    have hform :
        ([add_opcode_extension dst REX_W, 0xB8 + enc dst % 8] ++ i64ToLeBytes imm
            : List Nat) =
          (if enc dst > 7 then 0x49 else 0x48) :: (0xB8 + enc dst % 8) ::
            i64ToLeBytes imm := by
      cases dst <;>
        simp [add_opcode_extension, add_rm_extension, enc, REX_W, REX]
    have hlen : (mov_register64bit_immediate64bit dst imm).length = 10 := by
      rw [heq]
      simp [i64ToLeBytes_length]
    exact ⟨fun hc => absurd hc h, fun _ => ⟨heq.trans hform, hlen⟩, by simp [hlen, h]⟩

/-- Witness for `mov64_imm64_range_split`: the in-range immediate 3 takes
the 7-byte path and the first out-of-range immediate `2^31` takes the
10-byte path, both on RAX. -/
theorem mov64_imm64_range_split_witness :
    mov_register64bit_immediate64bit X86_64GPReg.RAX 3 =
      [0x48, 0xC7, 0xC0, 3, 0, 0, 0] ∧
    (mov_register64bit_immediate64bit X86_64GPReg.RAX 2147483648).length = 10 := by
  have h1 :=
    (mov64_imm64_range_split X86_64GPReg.RAX 3 (by norm_num) (by norm_num)).1
      (by norm_num)
  have h2 :=
    (mov64_imm64_range_split X86_64GPReg.RAX 2147483648 (by norm_num)
      (by norm_num)).2.1 (by norm_num)
  exact ⟨h1.1.trans (by decide), h2.2⟩

/-- C2: `add_register64bit_register64bit` and
`mov_register64bit_register64bit` each emit exactly three bytes: a REX
byte `0x48` plus `0x01` when the r/m register's encoding exceeds 7 plus
`0x04` when the reg-field register's encoding exceeds 7 (independently,
up to `0x4D`), then the opcode (`0x01` for add, `0x89` for mov), then the
ModRM byte `0xC0 + enc dst % 8 + (enc src % 8) <<< 3`. -/
theorem add_mov_reg_reg_encoding :
    ∀ dst src : X86_64GPReg,
      add_register64bit_register64bit dst src =
        [0x48 + (if enc dst > 7 then 1 else 0) + (if enc src > 7 then 4 else 0),
         0x01, 0xC0 + enc dst % 8 + (enc src % 8) * 8] ∧
      mov_register64bit_register64bit dst src =
        [0x48 + (if enc dst > 7 then 1 else 0) + (if enc src > 7 then 4 else 0),
         0x89, 0xC0 + enc dst % 8 + (enc src % 8) * 8] ∧
      (add_register64bit_register64bit dst src).length = 3 ∧
      (mov_register64bit_register64bit dst src).length = 3 := by
  decide

/-- C3 counterexample: the first five registers popped from the end of
the System V free-register list are R11, R10, R9, R8, RDI — not
RDI, RSI, RDX, RCX, RAX as claimed. -/
theorem systemv_free_regs_pop_order_counterexample :
    X86_64SystemV.gp_default_free_regs.reverse.take 5 =
      [R11, R10, R9, R8, RDI] ∧
    X86_64SystemV.gp_default_free_regs.reverse.take 5 ≠
      [RDI, RSI, RDX, RCX, RAX] := by
  decide

/-- C3 (amended): repeatedly popping the System V free-register list from
the end yields R11, R10, R9, R8 first, then RDI, RSI, RDX, RCX, RAX —
all nine caller-saved scratch registers — and only after all of those
does it ever yield a callee-saved register. -/
theorem systemv_free_regs_pop_order :
    X86_64SystemV.gp_default_free_regs.reverse =
      [R11, R10, R9, R8, RDI, RSI, RDX, RCX, RAX, R15, R14, R13, R12, RBX] ∧
    (∀ r ∈ X86_64SystemV.gp_default_free_regs.reverse.take 9,
      r ∈ X86_64SystemV.caller_saved_regs) ∧
    (∀ r ∈ X86_64SystemV.gp_default_free_regs.reverse.drop 9,
      r ∈ X86_64SystemV.callee_saved_regs) := by
  decide

/-- C4: `push_register64bit` and `pop_register64bit` emit the single byte
`baseOpcode + enc % 8` (base `0x50` for push, `0x58` for pop) when the
register's encoding is at most 7 — no prefix byte at all — and exactly
two bytes `0x41` then `baseOpcode + enc % 8` when it exceeds 7; in
particular push/pop of R15 is 2 bytes and push/pop of RAX is 1 byte. -/
theorem push_pop_encoding :
    ∀ reg : X86_64GPReg,
      push_register64bit reg =
        (if enc reg > 7 then [0x41, 0x50 + enc reg % 8]
         else [0x50 + enc reg % 8]) ∧
      pop_register64bit reg =
        (if enc reg > 7 then [0x41, 0x58 + enc reg % 8]
         else [0x58 + enc reg % 8]) ∧
      (push_register64bit reg).length = (if enc reg > 7 then 2 else 1) ∧
      (pop_register64bit reg).length = (if enc reg > 7 then 2 else 1) ∧
      (push_register64bit R15).length = 2 ∧
      (push_register64bit RAX).length = 1 ∧
      (pop_register64bit R15).length = 2 ∧
      (pop_register64bit RAX).length = 1 := by
  decide

/-- C5: the stack-slot load `mov_register64bit_stackoffset32bit` emits
exactly 8 bytes — REX (`0x48` plus `0x04` when the register's encoding
exceeds 7), opcode `0x8B`, ModRM `0x84 + (enc % 8) <<< 3`, SIB `0x24`,
then the 4-byte little-endian signed offset — and the stack-slot store
`mov_stackoffset32bit_register64bit` emits the same shape with opcode
`0x89`; the 4-byte-displacement SIB form is used for every offset. -/
theorem stack_mov_sib_encoding (reg : X86_64GPReg) (offset : Int)
    (hlo : (-2147483648 : Int) ≤ offset) (hhi : offset ≤ 2147483647) :
    mov_register64bit_stackoffset32bit reg offset =
      (if enc reg > 7 then 0x4C else 0x48) :: 0x8B ::
        (0x84 + (enc reg % 8) * 8) :: 0x24 :: i32ToLeBytes offset ∧
    mov_stackoffset32bit_register64bit offset reg =
      (if enc reg > 7 then 0x4C else 0x48) :: 0x89 ::
        (0x84 + (enc reg % 8) * 8) :: 0x24 :: i32ToLeBytes offset ∧
    (mov_register64bit_stackoffset32bit reg offset).length = 8 ∧
    (mov_stackoffset32bit_register64bit offset reg).length = 8 := by
  have h := i32ToLeBytes_length offset
  cases reg <;>
    simp [mov_register64bit_stackoffset32bit, mov_stackoffset32bit_register64bit,
      add_reg_extension, enc, REX_W, REX, h]

/-- Witness for `stack_mov_sib_encoding`: loading and storing RAX at the
small offset 4 still uses the 8-byte disp32 SIB form. -/
theorem stack_mov_sib_encoding_witness :
    mov_register64bit_stackoffset32bit X86_64GPReg.RAX 4 =
      [0x48, 0x8B, 0x84, 0x24, 4, 0, 0, 0] ∧
    (mov_stackoffset32bit_register64bit 4 X86_64GPReg.RAX).length = 8 := by
  have h := stack_mov_sib_encoding X86_64GPReg.RAX 4 (by norm_num) (by norm_num)
  exact ⟨h.1.trans (by decide), h.2.2.2⟩

/-- C6: for both calling conventions the caller-saved and callee-saved
sets are disjoint and jointly cover all 16 registers; every parameter
and return register lies in exactly one of the two sets; and neither the
stack pointer nor the frame pointer ever appears in the default
free-register list. -/
theorem callconv_saved_sets_invariants :
    (∀ r : X86_64GPReg,
        r ∈ X86_64SystemV.caller_saved_regs ↔
          r ∉ X86_64SystemV.callee_saved_regs) ∧
    (∀ r : X86_64GPReg,
        r ∈ X86_64WindowsFastcall.caller_saved_regs ↔
          r ∉ X86_64WindowsFastcall.callee_saved_regs) ∧
    (∀ r ∈ X86_64SystemV.gp_param_regs,
        (r ∈ X86_64SystemV.caller_saved_regs ∧
          r ∉ X86_64SystemV.callee_saved_regs) ∨
        (r ∉ X86_64SystemV.caller_saved_regs ∧
          r ∈ X86_64SystemV.callee_saved_regs)) ∧
    (∀ r ∈ X86_64SystemV.gp_return_regs,
        (r ∈ X86_64SystemV.caller_saved_regs ∧
          r ∉ X86_64SystemV.callee_saved_regs) ∨
        (r ∉ X86_64SystemV.caller_saved_regs ∧
          r ∈ X86_64SystemV.callee_saved_regs)) ∧
    (∀ r ∈ X86_64WindowsFastcall.gp_param_regs,
        (r ∈ X86_64WindowsFastcall.caller_saved_regs ∧
          r ∉ X86_64WindowsFastcall.callee_saved_regs) ∨
        (r ∉ X86_64WindowsFastcall.caller_saved_regs ∧
          r ∈ X86_64WindowsFastcall.callee_saved_regs)) ∧
    (∀ r ∈ X86_64WindowsFastcall.gp_return_regs,
        (r ∈ X86_64WindowsFastcall.caller_saved_regs ∧
          r ∉ X86_64WindowsFastcall.callee_saved_regs) ∨
        (r ∉ X86_64WindowsFastcall.caller_saved_regs ∧
          r ∈ X86_64WindowsFastcall.callee_saved_regs)) ∧
    X86_64SystemV.stack_pointer ∉ X86_64SystemV.gp_default_free_regs ∧
    X86_64SystemV.frame_pointer ∉ X86_64SystemV.gp_default_free_regs ∧
    X86_64WindowsFastcall.stack_pointer ∉
      X86_64WindowsFastcall.gp_default_free_regs ∧
    X86_64WindowsFastcall.frame_pointer ∉
      X86_64WindowsFastcall.gp_default_free_regs :=
  ⟨by decide, by decide, by decide, by decide, by decide, by decide, by decide,
   by decide, by decide, by decide⟩

/-- C7: the static table contents match the documented ABIs — System V
has 6 parameter registers, return registers `[RAX, RDX]`, shadow space 0
and red zone 128; Windows fastcall has 4 parameter registers, the single
return register `[RAX]`, shadow space 32 and red zone 0. -/
theorem callconv_table_contents :
    X86_64SystemV.gp_param_regs.length = 6 ∧
    X86_64SystemV.gp_return_regs = [RAX, RDX] ∧
    X86_64SystemV.shadow_space_size = 0 ∧
    X86_64SystemV.red_zone_size = 128 ∧
    X86_64WindowsFastcall.gp_param_regs.length = 4 ∧
    X86_64WindowsFastcall.gp_return_regs = [RAX] ∧
    X86_64WindowsFastcall.shadow_space_size = 32 ∧
    X86_64WindowsFastcall.red_zone_size = 0 := by
  decide

end RocX86

namespace RocBitcode

theorem get_function_addFunction_self (m : LLVMModule) (f : LLVMFunction)
    (h : m.get_function f.name = none) :
    (m.addFunction f).get_function f.name = some f := by
  obtain ⟨l⟩ := m
  simp only [LLVMModule.get_function, LLVMModule.addFunction] at h ⊢
  rw [List.find?_append, h]
  simp [List.find?]

theorem layoutIds_get_stable (l : LayoutIds) (s : Symbol) (lay : Layout) :
    LayoutIds.get (LayoutIds.get l s lay).2 s lay = LayoutIds.get l s lay := by
  cases h : l.assigned.find? (fun p => p.1 == (s, lay)) with
  | some p => simp [LayoutIds.get, h]
  | none => simp [LayoutIds.get, h, List.find?]

/-- C8: when the module contains no function of the requested name, the
bitcode-call path (`call_bitcode_fn`, `call_void_bitcode_fn`, via
`call_bitcode_fn_help`) fails fatally, and the failure message contains
the offending function name together with the rebuild-the-bitcode
remediation hint. -/
theorem missing_bitcode_fn_fatal (m : LLVMModule) (args : List BasicValueEnum)
    (fn_name : String) (h : m.get_function fn_name = none) :
    ∃ msg,
      call_bitcode_fn_help m args fn_name = .error msg ∧
      call_bitcode_fn m args fn_name = .error msg ∧
      call_void_bitcode_fn m args fn_name = .error msg ∧
      strContains msg fn_name ∧
      strContains msg "rebuild the bitcode" := by
  refine ⟨unrecognizedBuiltinMsg fn_name, ?_, ?_, ?_, ?_, ?_⟩
  · simp [call_bitcode_fn_help, h]
  · simp [call_bitcode_fn, call_bitcode_fn_help, h]
  · simp [call_void_bitcode_fn, call_bitcode_fn_help, h]
  · exact ⟨"Unrecognized builtin function: \"",
      "\" - if you're working on the Roc compiler, do you need to rebuild the bitcode? See compiler/builtins/bitcode/README.md",
      rfl⟩
  · refine ⟨"Unrecognized builtin function: \"" ++ fn_name ++
        "\" - if you're working on the Roc compiler, do you need to ",
      "? See compiler/builtins/bitcode/README.md", ?_⟩
    apply String.ext
    simp only [unrecognizedBuiltinMsg, String.data_append, List.append_assoc]
    congr 2

/-- Witness for `missing_bitcode_fn_fatal`: the empty module has no
function named `roc_builtins.list.map`, and calling it fails with the
panic message. -/
theorem missing_bitcode_fn_fatal_witness :
    (LLVMModule.mk []).get_function "roc_builtins.list.map" = none ∧
    ∃ msg,
      call_bitcode_fn_help ⟨[]⟩ [] "roc_builtins.list.map" = .error msg ∧
      call_bitcode_fn ⟨[]⟩ [] "roc_builtins.list.map" = .error msg ∧
      call_void_bitcode_fn ⟨[]⟩ [] "roc_builtins.list.map" = .error msg ∧
      strContains msg "roc_builtins.list.map" ∧
      strContains msg "rebuild the bitcode" :=
  ⟨rfl, missing_bitcode_fn_fatal ⟨[]⟩ [] "roc_builtins.list.map" rfl⟩

/-- C9: whenever `build_compare_wrapper` newly builds its wrapper (the
module has no function of the derived name yet), the built wrapper's own
calling convention is the plain C convention, while the call its body
makes to the user's function uses the internal fast convention. -/
theorem compare_wrapper_conventions (m : LLVMModule)
    (roc_function : LLVMFunction) (closure_data_layout : Layout)
    (fv : LLVMFunction) (m' : LLVMModule)
    (hnew : m.get_function (compareWrapperName roc_function.name) = none)
    (hbuild : build_compare_wrapper m roc_function closure_data_layout =
      some (fv, m')) :
    fv.callConv = CallConvLLVM.cCall ∧
    fv.bodyCalls = [(roc_function.name, CallConvLLVM.fastCall)] := by
  cases harg : compareClosureArg closure_data_layout with
  | none => simp [build_compare_wrapper, hnew, harg] at hbuild
  | some b =>
      simp only [build_compare_wrapper, hnew, harg] at hbuild
      injection hbuild with hbuild
      have hfv : fv = ⟨compareWrapperName roc_function.name, false,
          CallConvLLVM.cCall, [(roc_function.name, CallConvLLVM.fastCall)]⟩ :=
        (congrArg Prod.fst hbuild).symm
      rw [hfv]
      exact ⟨rfl, rfl⟩

/-- Witness for `compare_wrapper_conventions`: building the wrapper for a
function named `f` over the empty module. -/
theorem compare_wrapper_conventions_witness :
    (LLVMFunction.mk (compareWrapperName "f") false CallConvLLVM.cCall
        [("f", CallConvLLVM.fastCall)]).callConv = CallConvLLVM.cCall ∧
    (LLVMFunction.mk (compareWrapperName "f") false CallConvLLVM.cCall
        [("f", CallConvLLVM.fastCall)]).bodyCalls =
      [("f", CallConvLLVM.fastCall)] :=
  compare_wrapper_conventions ⟨[]⟩ ⟨"f", false, CallConvLLVM.fastCall, []⟩
    Layout.structEmpty _ _ rfl rfl

/-- C10: every wrapper builder is idempotent per derived function name —
rerunning a builder on the module (and layout-id state) its first run
produced, with the same inputs, returns the same function and leaves the
module unchanged, so the wrapper is added to the module at most once. -/
theorem wrapper_builders_idempotent :
    (∀ (m : LLVMModule) (f : LLVMFunction) (cdl : Layout) (als : List Layout),
        build_transform_caller (build_transform_caller m f cdl als).2 f cdl als =
          build_transform_caller m f cdl als) ∧
    (∀ (m : LLVMModule) (lids : LayoutIds) (lay : Layout) (mode : Mode),
        build_rc_wrapper (build_rc_wrapper m lids lay mode).2.1
            (build_rc_wrapper m lids lay mode).2.2 lay mode =
          build_rc_wrapper m lids lay mode) ∧
    (∀ (m : LLVMModule) (lids : LayoutIds) (lay : Layout),
        build_eq_wrapper (build_eq_wrapper m lids lay).2.1
            (build_eq_wrapper m lids lay).2.2 lay =
          build_eq_wrapper m lids lay) ∧
    (∀ (m : LLVMModule) (f : LLVMFunction) (cdl : Layout)
        (res : LLVMFunction × LLVMModule),
        build_compare_wrapper m f cdl = some res →
          build_compare_wrapper res.2 f cdl = some res) := by
  refine ⟨?_, ?_, ?_, ?_⟩
  · intro m f cdl als
    cases h : m.get_function (f.name ++ "_zig_function_caller") with
    | some fv => simp [build_transform_caller, h]
    | none =>
        have hadd := get_function_addFunction_self m
          ⟨f.name ++ "_zig_function_caller", true, .fastCall,
            [(f.name, .fastCall)]⟩ h
        simp [build_transform_caller, build_transform_caller_help, h, hadd]
  · intro m lids lay mode
    have hstable := layoutIds_get_stable lids Symbol.genericRcRef lay
    cases mode with
    | inc =>
        cases h : m.get_function
            (toSymbolString Symbol.genericRcRef
              (LayoutIds.get lids Symbol.genericRcRef lay).1 ++ "_inc") with
        | some fv => simp [build_rc_wrapper, h, hstable]
        | none =>
            have hadd := get_function_addFunction_self m
              ⟨toSymbolString Symbol.genericRcRef
                  (LayoutIds.get lids Symbol.genericRcRef lay).1 ++ "_inc",
                true, .fastCall, []⟩ h
            simp [build_rc_wrapper, h, hstable, hadd]
    | incN =>
        cases h : m.get_function
            (toSymbolString Symbol.genericRcRef
              (LayoutIds.get lids Symbol.genericRcRef lay).1 ++ "_inc_n") with
        | some fv => simp [build_rc_wrapper, h, hstable]
        | none =>
            have hadd := get_function_addFunction_self m
              ⟨toSymbolString Symbol.genericRcRef
                  (LayoutIds.get lids Symbol.genericRcRef lay).1 ++ "_inc_n",
                true, .fastCall, []⟩ h
            simp [build_rc_wrapper, h, hstable, hadd]
    | dec =>
        cases h : m.get_function
            (toSymbolString Symbol.genericRcRef
              (LayoutIds.get lids Symbol.genericRcRef lay).1 ++ "_dec") with
        | some fv => simp [build_rc_wrapper, h, hstable]
        | none =>
            have hadd := get_function_addFunction_self m
              ⟨toSymbolString Symbol.genericRcRef
                  (LayoutIds.get lids Symbol.genericRcRef lay).1 ++ "_dec",
                true, .fastCall, []⟩ h
            simp [build_rc_wrapper, h, hstable, hadd]
  · intro m lids lay
    have hstable := layoutIds_get_stable lids Symbol.genericEqRef lay
    cases h : m.get_function
        (toSymbolString Symbol.genericEqRef
          (LayoutIds.get lids Symbol.genericEqRef lay).1) with
    | some fv => simp [build_eq_wrapper, h, hstable]
    | none =>
        have hadd := get_function_addFunction_self m
          ⟨toSymbolString Symbol.genericEqRef
              (LayoutIds.get lids Symbol.genericEqRef lay).1,
            false, .fastCall, []⟩ h
        simp [build_eq_wrapper, h, hstable, hadd]
  · intro m f cdl res hres
    cases h : m.get_function (compareWrapperName f.name) with
    | some fv =>
        simp only [build_compare_wrapper, h] at hres
        injection hres with hres
        subst hres
        simp [build_compare_wrapper, h]
    | none =>
        cases harg : compareClosureArg cdl with
        | none => simp [build_compare_wrapper, h, harg] at hres
        | some b =>
            simp only [build_compare_wrapper, h, harg] at hres
            injection hres with hres
            subst hres
            have hadd := get_function_addFunction_self m
              ⟨compareWrapperName f.name, false, .cCall,
                [(f.name, .fastCall)]⟩ h
            simp [build_compare_wrapper, hadd]

/-- Witness for `wrapper_builders_idempotent`: rebuilding the compare
wrapper for `f` on the module produced by its first build returns the
existing wrapper and leaves the module unchanged. -/
theorem wrapper_builders_idempotent_witness :
    build_compare_wrapper
        ⟨[⟨compareWrapperName "f", false, CallConvLLVM.cCall,
            [("f", CallConvLLVM.fastCall)]⟩]⟩
        ⟨"f", false, CallConvLLVM.fastCall, []⟩ Layout.structEmpty =
      some (⟨compareWrapperName "f", false, CallConvLLVM.cCall,
          [("f", CallConvLLVM.fastCall)]⟩,
        ⟨[⟨compareWrapperName "f", false, CallConvLLVM.cCall,
            [("f", CallConvLLVM.fastCall)]⟩]⟩) :=
  wrapper_builders_idempotent.2.2.2 ⟨[]⟩ ⟨"f", false, CallConvLLVM.fastCall, []⟩
    Layout.structEmpty _ rfl

end RocBitcode
